import Mathlib

/-!
Shallow embedding of the MailServer repository (an Express mail API).

Two server variants live in the repository:
* `src/unnamed/part_000` — the full server: per-send 7000 ms timeout
  (`sendWithTimeout`), concurrent `Promise.all` join, `DISABLE_EMAIL`
  bypass, and distinct 504/502 failure statuses; modelled below by
  `handleSendEstimate`.
* `src/index.js` — a simpler variant: sequential awaited sends and a
  uniform 500 failure status; modelled by `handleSendEstimateLegacy`.

Machine-level JS details (event loop, real wall clock) are modelled by
giving every mail-send promise an explicit settlement outcome and
settlement time in milliseconds, and by computing the race/join
semantics of `Promise.race` and `Promise.all` over those outcomes.
-/

/-- JS string truthiness for an optional string field: `undefined`,
`null` and the empty string are falsy; every other string is truthy. -/
def falsy : Option String → Bool
  | none => true
  | some s => s.isEmpty

/-- JS `a || d` for an optional string `a` and string default `d`
(used for `type || '—'`, `FROM_NAME || 'Website'`, etc.). -/
def jsOr (a : Option String) (d : String) : String :=
  match a with
  | none => d
  | some s => if s.isEmpty then d else s

/-- JS `s || null`: a non-empty string stays, a falsy value becomes null. -/
def jsStrOrNull (s : String) : Option String :=
  if s.isEmpty then none else some s

/-- The JS `\s` character class (whitespace), restricted to the code
points that can realistically occur here: space, tab, line feed,
carriage return, vertical tab, form feed, no-break space, BOM and the
two line/paragraph separators. -/
def jsWhitespace (c : Char) : Bool :=
  c == ' ' || c == '\t' || c == '\n' || c == '\r' ||
  c == '\u000B' || c == '\u000C' || c == ' ' ||
  c == ' ' || c == ' ' || c == '﻿'

/-- States of the deterministic automaton for the source's email regex
`/^[^\s@]+@[^\s@]+\.[^\s@]+$/` (subset construction; note that `.` is
itself a member of the class `[^\s@]`):
`st0` start, `stLoc` inside the local part, `stAt` just after `@`,
`stDom` inside the domain with no completed interior dot yet,
`stDot` a dot at domain position ≥ 2 still awaiting a following char,
`stAcc` a full match is possible ending here, `stRej` dead state. -/
inductive EState where
  | st0 | stLoc | stAt | stDom | stDot | stAcc | stRej
deriving DecidableEq, Repr

/-- One transition of the email automaton. -/
def estep (q : EState) (c : Char) : EState :=
  match q with
  | .stRej => .stRej
  | .st0 => if jsWhitespace c || c == '@' then .stRej else .stLoc
  | .stLoc =>
      if c == '@' then .stAt
      else if jsWhitespace c then .stRej else .stLoc
  | .stAt => if jsWhitespace c || c == '@' then .stRej else .stDom
  | .stDom =>
      if jsWhitespace c || c == '@' then .stRej
      else if c == '.' then .stDot else .stDom
  | .stDot => if jsWhitespace c || c == '@' then .stRej else .stAcc
  | .stAcc => if jsWhitespace c || c == '@' then .stRej else .stAcc

/-- `isEmail` from both server files:
`const isEmail = (v = '') => /^[^\s@]+@[^\s@]+\.[^\s@]+$/.test(v)`. -/
def isEmail (s : String) : Bool :=
  (s.data.foldl estep EState.st0) == EState.stAcc

/-- Everything after the first `@` of a string (the regex's domain
part); empty when there is no `@`. -/
def domainPart (s : String) : List Char :=
  (s.data.dropWhile (fun c => !(c == '@'))).tail

/-- The parsed request body `{name,email,phone,city,type,message}`;
each field is absent (`none`) or a string. -/
structure EstimateBody where
  name : Option String := none
  email : Option String := none
  phone : Option String := none
  city : Option String := none
  type : Option String := none
  message : Option String := none
deriving DecidableEq, Repr

/-- Environment configuration read by the handler. `MAIL_USER` is the
configured sender address. -/
structure Env where
  DISABLE_EMAIL : Option String := none
  FROM_NAME : Option String := none
  MAIL_USER : String := ""
  LEADS_TO : Option String := none
deriving DecidableEq, Repr

/-- A nodemailer message object as constructed by the handlers. -/
structure MailMessage where
  «from» : String
  «to» : String
  replyTo : String
  subject : String
  text : Option String := none
  html : Option String := none
deriving DecidableEq, Repr

/-- The info object resolved by `transporter.sendMail`. -/
structure MailInfo where
  messageId : String
deriving DecidableEq, Repr

/-- Outcome of a `sendMail` promise: resolution with an info object at
time `t` (ms), rejection with an error message at time `t`, or never
settling at all. -/
inductive SendOutcome where
  | resolved (info : MailInfo) (t : Nat)
  | rejected (err : String) (t : Nat)
  | pending
deriving DecidableEq, Repr

/-- A promise outcome that is guaranteed to settle (the result of
racing a send against a timer). -/
inductive Settled where
  | resolved (info : MailInfo) (t : Nat)
  | rejected (err : String) (t : Nat)
deriving DecidableEq, Repr

/-- Settlement time of a settled promise. -/
def Settled.time : Settled → Nat
  | .resolved _ t => t
  | .rejected _ t => t

/-- `sendWithTimeout(sendPromise, ms)` from `src/unnamed/part_000`:
`Promise.race([sendPromise, timeout])` where the timer rejects with
`Error('SMTP_TIMEOUT')` after `ms` milliseconds. The send wins the
race exactly when it settles strictly before the timer fires. -/
def sendWithTimeout (p : SendOutcome) (ms : Nat := 6000) : Settled :=
  match p with
  | .resolved i t => if t < ms then .resolved i t else .rejected ("SMTP_TIMEOUT") ms
  | .rejected e t => if t < ms then .rejected e t else .rejected ("SMTP_TIMEOUT") ms
  | .pending => .rejected ("SMTP_TIMEOUT") ms

/-- Result of `Promise.all` over two settled promises. -/
inductive JoinResult where
  | ok (i1 i2 : MailInfo) (t : Nat)
  | err (e : String) (t : Nat)
deriving DecidableEq, Repr

/-- `Promise.all([r1, r2])`: fulfils with both infos once both resolve
(at the later of the two times); rejects with the first rejection to
settle (ties broken in array order). -/
def promiseAll2 (r1 r2 : Settled) : JoinResult :=
  match r1, r2 with
  | .resolved i1 t1, .resolved i2 t2 => .ok i1 i2 (max t1 t2)
  | .rejected e t, .resolved _ _ => .err e t
  | .resolved _ _, .rejected e t => .err e t
  | .rejected e1 t1, .rejected e2 t2 =>
      if t2 < t1 then .err e2 t2 else .err e1 t1

/-- JSON response of the estimate endpoint: an `{ok:false, error}`
failure with an HTTP status, the `{ok:true, note, submittedAt}`
disabled-bypass body, or the `{ok:true, leadId, autoId}` success body. -/
inductive ApiResponse where
  | errorResp (status : Nat) (error : String)
  | disabledResp (note : String) (submittedAt : String)
  | successResp (leadId : Option String) (autoId : Option String)
deriving DecidableEq, Repr

/-- HTTP status of a response (`res.json` without `res.status` is 200). -/
def ApiResponse.statusCode : ApiResponse → Nat
  | .errorResp s _ => s
  | .disabledResp _ _ => 200
  | .successResp _ _ => 200

/-- The `ok` field of the JSON body. -/
def ApiResponse.okField : ApiResponse → Bool
  | .errorResp _ _ => false
  | .disabledResp _ _ => true
  | .successResp _ _ => true

/-- `String(message).replace(/[<>]/g, '')`: remove every `<` and `>`. -/
def stripAngles (s : String) : String :=
  String.mk (s.data.filter (fun c => !(c == '<' || c == '>')))

/-- The `Message:` field of the auto-reply HTML:
`message ? String(message).replace(/[<>]/g, '') : '—'`. -/
def msgHtmlField (message : Option String) : String :=
  match message with
  | none => "—"
  | some m => if m.isEmpty then "—" else stripAngles m

/-- The plain-text body of the internal lead notice (identical template
in both server files). -/
def mkInternalText (name email phone city : String)
    (type message : Option String) (now : String) : String :=
  "Name: " ++ name ++ "\n" ++
  "Email: " ++ email ++ "\n" ++
  "Phone: " ++ phone ++ "\n" ++
  "City: " ++ city ++ "\n" ++
  "Type: " ++ jsOr type ("—") ++ "\n" ++
  "Message: " ++ jsOr message ("—") ++ "\n" ++
  "Submitted: " ++ now

/-- The HTML body of the auto-reply (identical template literal in both
server files), with the free-text message angle-stripped. -/
def autoReplyHtml (name phone city : String)
    (type message : Option String) : String :=
  "\n        <div style=\"font-family:Inter,system-ui,Arial,sans-serif;line-height:1.6;color:#111\">\n          <h2 style=\"margin:0 0 8px\">Thanks, "
  ++ name ++
  "!</h2>\n          <p>We received your request for a free estimate. A specialist will contact you shortly.</p>\n          <p><strong>Summary</strong><br>\n          Phone: "
  ++ phone ++
  "<br>\n          City: "
  ++ city ++
  "<br>\n          Blind Type: "
  ++ jsOr type ("—") ++
  "<br>\n          Message: "
  ++ msgHtmlField message ++
  "</p>\n          <p>Questions? Reply to this email or call (626) 430-4003.</p>\n          <p style=\"color:#6b7280\">Patio Blinds Direct • Serving all Southern California</p>\n        </div>\n      "

/-- The internal lead notice: DMARC-aligned `from`, `to` the configured
leads address, `replyTo` the submitter. -/
def mkInternalMail (env : Env) (name email phone city : String)
    (type message : Option String) (now : String) : MailMessage :=
  { «from» := "\"" ++ jsOr env.FROM_NAME ("Website") ++ "\" <" ++ env.MAIL_USER ++ ">"
    «to» := jsOr env.LEADS_TO ("joe@patioblindsdirect.com")
    replyTo := email
    subject := "New Estimate — " ++ name ++ " (" ++ city ++ ")"
    text := some (mkInternalText name email phone city type message now)
    html := none }

/-- The auto-reply to the submitter: `to` the submitter, `replyTo` the
leads address, fixed acknowledgment subject, HTML body. -/
def mkAutoReplyMail (env : Env) (name email phone city : String)
    (type message : Option String) : MailMessage :=
  { «from» := "\"" ++ jsOr env.FROM_NAME ("Website") ++ "\" <" ++ env.MAIL_USER ++ ">"
    «to» := email
    replyTo := jsOr env.LEADS_TO ("joe@patioblindsdirect.com")
    subject := "We received your estimate request — Patio Blinds Direct"
    text := none
    html := some (autoReplyHtml name phone city type message) }

/-- Result of one request to `POST /api/send-estimate`: the JSON
response, the list of `sendMail` calls issued to the transport (in
issue order), and the time (ms from entering the send phase) at which
the response was produced. -/
structure HandlerResult where
  resp : ApiResponse
  sent : List MailMessage
  time : Nat
deriving DecidableEq, Repr

/-- The per-send timeout used at the call sites of `sendWithTimeout`
in `src/unnamed/part_000` (`sendWithTimeout(internalP, 7000)`). -/
def sendTimeoutMs : Nat := 7000

/-- The transport's connection-level timeouts from the
`nodemailer.createTransport` options of `src/unnamed/part_000`
(`connectionTimeout: 5000, greetingTimeout: 5000, socketTimeout: 5000`). -/
def connectionTimeoutMs : Nat := 5000

/-- `greetingTimeout` of the transport configuration. -/
def greetingTimeoutMs : Nat := 5000

/-- `socketTimeout` of the transport configuration. -/
def socketTimeoutMs : Nat := 5000

/-- The `POST /api/send-estimate` handler of `src/unnamed/part_000`.
`reqBody` is the parsed JSON body (`none` when the request has no
body: `req.body || {}`), `now` the value of `nowISO()`, and `send` the
transport: the settlement behaviour of `transporter.sendMail` on each
message. Both sends are issued before either is awaited; each is raced
against a 7000 ms timer and the pair is joined with `Promise.all`. -/
def handleSendEstimate (env : Env) (reqBody : Option EstimateBody)
    (now : String) (send : MailMessage → SendOutcome) : HandlerResult :=
  let b := reqBody.getD {}
  if falsy b.name || falsy b.email || falsy b.phone || falsy b.city then
    ⟨.errorResp 400 ("MISSING_FIELDS"), [], 0⟩
  else if !(isEmail (b.email.getD "")) then
    ⟨.errorResp 400 ("INVALID_EMAIL"), [], 0⟩
  else if env.DISABLE_EMAIL == some "true" then
    ⟨.disabledResp ("email disabled") now, [], 0⟩
  else
    let m1 := mkInternalMail env (b.name.getD "") (b.email.getD "")
      (b.phone.getD "") (b.city.getD "") b.type b.message now
    let m2 := mkAutoReplyMail env (b.name.getD "") (b.email.getD "")
      (b.phone.getD "") (b.city.getD "") b.type b.message
    let r1 := sendWithTimeout (send m1) sendTimeoutMs
    let r2 := sendWithTimeout (send m2) sendTimeoutMs
    match promiseAll2 r1 r2 with
    | .ok i1 i2 t =>
        ⟨.successResp (jsStrOrNull i1.messageId) (jsStrOrNull i2.messageId),
          [m1, m2], t⟩
    | .err e t =>
        ⟨.errorResp (if e == "SMTP_TIMEOUT" then 504 else 502) ("MAIL_SEND_FAILED"),
          [m1, m2], t⟩

/-- The `POST /api/send-estimate` handler of `src/index.js` (the
simpler variant): the two sends are awaited sequentially with no
per-send timeout (and that variant's transport configures no
connection timeouts either), so a never-settling send hangs the
request (`none`); every send failure is answered with status 500. -/
def handleSendEstimateLegacy (env : Env) (reqBody : Option EstimateBody)
    (now : String) (send : MailMessage → SendOutcome) :
    Option ApiResponse × List MailMessage :=
  let b := reqBody.getD {}
  if falsy b.name || falsy b.email || falsy b.phone || falsy b.city then
    (some (.errorResp 400 ("MISSING_FIELDS")), [])
  else if !(isEmail (b.email.getD "")) then
    (some (.errorResp 400 ("INVALID_EMAIL")), [])
  else
    let m1 := mkInternalMail env (b.name.getD "") (b.email.getD "")
      (b.phone.getD "") (b.city.getD "") b.type b.message now
    match send m1 with
    | .pending => (none, [m1])
    | .rejected _ _ => (some (.errorResp 500 ("MAIL_SEND_FAILED")), [m1])
    | .resolved i1 _ =>
        let m2 := mkAutoReplyMail env (b.name.getD "") (b.email.getD "")
          (b.phone.getD "") (b.city.getD "") b.type b.message
        match send m2 with
        | .pending => (none, [m1, m2])
        | .rejected _ _ => (some (.errorResp 500 ("MAIL_SEND_FAILED")), [m1, m2])
        | .resolved i2 _ =>
            (some (.successResp (some i1.messageId) (some i2.messageId)), [m1, m2])

/-- Splitting a character list at commas, mirroring JS
`String.prototype.split(',')` (splitting the empty string gives one
empty piece). -/
def splitOnComma : List Char → List (List Char)
  | [] => [[]]
  | c :: rest =>
      if c == ',' then [] :: splitOnComma rest
      else
        match splitOnComma rest with
        | [] => [[c]]
        | h :: t => (c :: h) :: t

/-- JS `String.prototype.trim`: strip leading and trailing whitespace. -/
def trimChars (cs : List Char) : List Char :=
  ((cs.dropWhile jsWhitespace).reverse.dropWhile jsWhitespace).reverse

/-- The CORS allow-list: `(process.env.ALLOWED_ORIGIN || '')`
split at commas, entries trimmed, empty entries discarded
(`.split(',').map(s => s.trim()).filter(Boolean)`). -/
def parseAllowList (allowedOrigin : Option String) : List String :=
  (((splitOnComma (allowedOrigin.getD "").data).map trimChars).filter
    (fun cs => !cs.isEmpty)).map String.mk

/-- Decision of the CORS `origin` callback. -/
inductive CorsResult where
  | allow
  | block (msg : String)
deriving DecidableEq, Repr

/-- The CORS `origin` callback of both server files:
`if (!origin || allow.includes(origin)) return cb(null, true);`
`return cb(new Error('CORS blocked from origin: ' + origin));`
`origin` is `none` when the request carries no Origin header. -/
def corsOrigin (allowedOrigin : Option String) (origin : Option String) :
    CorsResult :=
  match origin with
  | none => .allow
  | some o =>
      if o.isEmpty then .allow
      else if (parseAllowList allowedOrigin).contains o then .allow
      else .block ("CORS blocked from origin: " ++ o)

example : isEmail "a@b.c" = true := by decide
example : isEmail "user@mail.example.com" = true := by decide
example : isEmail "a@b" = false := by decide
example : isEmail "@b.c" = false := by decide
example : isEmail "a@.c" = false := by decide
example : isEmail "a@b." = false := by decide
example : isEmail "a b@c.d" = false := by decide
example : isEmail "a@b.c.d" = true := by decide
example : isEmail "a@b..c" = true := by decide
example : parseAllowList (some "https://a.com, https://b.com ,") =
    ["https://a.com", "https://b.com"] := by decide

/-! ### Helper lemmas -/

/-- `(s ++ t).data = s.data ++ t.data`. -/
theorem data_append_eq (s t : String) : (s ++ t).data = s.data ++ t.data :=
  rfl

/-- Does `p` start the list `l`? (Boolean, executable.) -/
def startsWithSeg : List Char → List Char → Bool
  | [], _ => true
  | _ :: _, [] => false
  | c :: p, d :: l => c == d && startsWithSeg p l

/-- Does `p` occur as a contiguous segment of `l`? (Boolean, executable.) -/
def containsSeg (p : List Char) : List Char → Bool
  | [] => startsWithSeg p []
  | c :: t => startsWithSeg p (c :: t) || containsSeg p t

theorem startsWithSeg_append (p b : List Char) :
    startsWithSeg p (p ++ b) = true := by
  induction p with
  | nil => rfl
  | cons c p ih => simp [startsWithSeg, ih]

theorem containsSeg_of_startsWith (p l : List Char)
    (h : startsWithSeg p l = true) : containsSeg p l = true := by
  cases l <;> simp [containsSeg, h]

theorem containsSeg_here (p b : List Char) :
    containsSeg p (p ++ b) = true :=
  containsSeg_of_startsWith _ _ (startsWithSeg_append p b)

theorem containsSeg_append_left (x : List Char) {p l : List Char}
    (h : containsSeg p l = true) : containsSeg p (x ++ l) = true := by
  induction x with
  | nil => exact h
  | cons c x ih => simp [containsSeg, ih]

theorem foldl_estep_stRej (cs : List Char) :
    cs.foldl estep EState.stRej = EState.stRej := by
  induction cs with
  | nil => rfl
  | cons c cs ih => rw [List.foldl_cons]; exact ih

/-- Local-part invariant of the email automaton: without consuming an
`@`, the automaton stays among the pre-`@` states. -/
theorem foldl_estep_local (cs : List Char) : ∀ q : EState,
    (q = .st0 ∨ q = .stLoc ∨ q = .stRej) → '@' ∉ cs →
    (cs.foldl estep q = .st0 ∨ cs.foldl estep q = .stLoc ∨
      cs.foldl estep q = .stRej) := by
  induction cs with
  | nil => intro q hq _; simpa using hq
  | cons c cs ih =>
      intro q hq hmem
      have hc : ¬(c = '@') := fun h => hmem (by simp [h])
      have hcs : '@' ∉ cs := fun h => hmem (List.mem_cons_of_mem _ h)
      rw [List.foldl_cons]
      refine ih _ ?_ hcs
      rcases hq with h | h | h <;> subst h
      · simp only [estep]; split <;> simp
      · simp only [estep]
        rw [if_neg (by simp [hc] : ¬((c == '@') = true))]
        split <;> simp
      · simp [estep]

/-- Domain invariant: without consuming a `.`, the automaton stays
among the no-interior-dot domain states (never accepting). -/
theorem foldl_estep_domain (cs : List Char) : ∀ q : EState,
    (q = .stAt ∨ q = .stDom ∨ q = .stRej) → '.' ∉ cs →
    (cs.foldl estep q = .stAt ∨ cs.foldl estep q = .stDom ∨
      cs.foldl estep q = .stRej) := by
  induction cs with
  | nil => intro q hq _; simpa using hq
  | cons c cs ih =>
      intro q hq hmem
      have hc : ¬(c = '.') := fun h => hmem (by simp [h])
      have hcs : '.' ∉ cs := fun h => hmem (List.mem_cons_of_mem _ h)
      rw [List.foldl_cons]
      refine ih _ ?_ hcs
      rcases hq with h | h | h <;> subst h
      · simp only [estep]; split <;> simp
      · simp only [estep]; split
        · simp
        · rw [if_neg (by simp [hc] : ¬((c == '.') = true))]; simp
      · simp [estep]

/-- A string without `@` never matches the email pattern. -/
theorem isEmail_eq_false_of_no_at (s : String) (h : '@' ∉ s.data) :
    isEmail s = false := by
  unfold isEmail
  rcases foldl_estep_local s.data .st0 (Or.inl rfl) h with h1 | h1 | h1 <;>
    rw [h1] <;> rfl

theorem dropWhile_at (cs : List Char) (h : '@' ∈ cs) :
    cs.dropWhile (fun c => !(c == '@')) =
      '@' :: (cs.dropWhile (fun c => !(c == '@'))).tail := by
  induction cs with
  | nil => cases h
  | cons c cs ih =>
      by_cases hc : c = '@'
      · subst hc; simp [List.dropWhile_cons]
      · have h' : '@' ∈ cs := by
          rcases List.mem_cons.mp h with h | h
          · exact absurd h.symm hc
          · exact h
        simpa [List.dropWhile_cons, hc] using ih h'

theorem no_at_takeWhile (cs : List Char) :
    '@' ∉ cs.takeWhile (fun c => !(c == '@')) := by
  intro h
  have := List.mem_takeWhile_imp h
  simp at this

/-- A string whose domain part (everything after the first `@`)
contains no dot never matches the email pattern. -/
theorem isEmail_eq_false_of_no_domain_dot (s : String)
    (h : '.' ∉ domainPart s) : isEmail s = false := by
  by_cases hat : '@' ∈ s.data
  · unfold isEmail
    have hsplit : s.data =
        s.data.takeWhile (fun c => !(c == '@')) ++ '@' :: domainPart s := by
      conv_lhs => rw [← List.takeWhile_append_dropWhile
        (p := fun c => !(c == '@')) (l := s.data)]
      rw [dropWhile_at s.data hat]
      rfl
    rw [hsplit, List.foldl_append, List.foldl_cons]
    have hq1 := foldl_estep_local (s.data.takeWhile (fun c => !(c == '@')))
      .st0 (Or.inl rfl) (no_at_takeWhile s.data)
    have hq2 : estep (List.foldl estep EState.st0
        (s.data.takeWhile (fun c => !(c == '@')))) '@' = .stAt ∨
        estep (List.foldl estep EState.st0
        (s.data.takeWhile (fun c => !(c == '@')))) '@' = .stRej := by
      rcases hq1 with h1 | h1 | h1 <;> rw [h1] <;> simp [estep, jsWhitespace]
    rcases hq2 with h2 | h2 <;> rw [h2]
    · rcases foldl_estep_domain (domainPart s) .stAt (Or.inl rfl) h with
        h3 | h3 | h3 <;> rw [h3] <;> rfl
    · rw [foldl_estep_stRej]; rfl
  · exact isEmail_eq_false_of_no_at s hat

/-- The internal lead notice the handler constructs from a request body. -/
def internalMailOf (env : Env) (b : EstimateBody) (now : String) : MailMessage :=
  mkInternalMail env (b.name.getD "") (b.email.getD "") (b.phone.getD "")
    (b.city.getD "") b.type b.message now

/-- The auto-reply the handler constructs from a request body. -/
def autoReplyMailOf (env : Env) (b : EstimateBody) : MailMessage :=
  mkAutoReplyMail env (b.name.getD "") (b.email.getD "") (b.phone.getD "")
    (b.city.getD "") b.type b.message

/-- Reduction of `handleSendEstimate` on a validated, email-enabled
request: the handler issues exactly the two messages and joins the two
timed races with `Promise.all`. -/
theorem handle_send_phase (env : Env) (b : EstimateBody) (now : String)
    (send : MailMessage → SendOutcome)
    (hn : falsy b.name = false) (he : falsy b.email = false)
    (hp : falsy b.phone = false) (hcity : falsy b.city = false)
    (hmail : isEmail (b.email.getD "") = true)
    (hd : env.DISABLE_EMAIL ≠ some "true") :
    handleSendEstimate env (some b) now send =
      match promiseAll2
          (sendWithTimeout (send (internalMailOf env b now)) sendTimeoutMs)
          (sendWithTimeout (send (autoReplyMailOf env b)) sendTimeoutMs) with
      | .ok i1 i2 t =>
          ⟨.successResp (jsStrOrNull i1.messageId) (jsStrOrNull i2.messageId),
            [internalMailOf env b now, autoReplyMailOf env b], t⟩
      | .err e t =>
          ⟨.errorResp (if e == "SMTP_TIMEOUT" then 504 else 502)
            ("MAIL_SEND_FAILED"),
            [internalMailOf env b now, autoReplyMailOf env b], t⟩ := by
  have hd' : (env.DISABLE_EMAIL == some "true") = false := by
    simpa using hd
  unfold handleSendEstimate internalMailOf autoReplyMailOf
  simp only [Option.getD_some, hn, he, hp, hcity, hmail, hd', Bool.false_or,
    Bool.or_self, Bool.not_true, if_false, ite_false, Bool.false_eq_true]

/-- Claim C1: a request missing any of the four required fields (a
missing body counts as all fields absent) gets HTTP 400 with error tag
MISSING_FIELDS and no send is attempted — in both server variants, for
every possible transport behaviour. -/
theorem claim1_missing_fields (env : Env) (reqBody : Option EstimateBody)
    (now : String) (send : MailMessage → SendOutcome)
    (h : (falsy (reqBody.getD {}).name || falsy (reqBody.getD {}).email ||
      falsy (reqBody.getD {}).phone || falsy (reqBody.getD {}).city) = true) :
    handleSendEstimate env reqBody now send =
      ⟨.errorResp 400 ("MISSING_FIELDS"), [], 0⟩ ∧
    handleSendEstimateLegacy env reqBody now send =
      (some (.errorResp 400 ("MISSING_FIELDS")), []) ∧
    (handleSendEstimate env reqBody now send).resp.okField = false := by
  refine ⟨?_, ?_, ?_⟩
  · unfold handleSendEstimate; rw [if_pos h]
  · unfold handleSendEstimateLegacy; rw [if_pos h]
  · unfold handleSendEstimate; rw [if_pos h]; rfl

/-- Witness for C1 at a concrete input: a request with no body at all. -/
theorem claim1_missing_fields_witness :
    handleSendEstimate {} none "2025-01-01T00:00:00.000Z"
      (fun _ => SendOutcome.pending) =
      ⟨.errorResp 400 ("MISSING_FIELDS"), [], 0⟩ ∧
    handleSendEstimateLegacy {} none "2025-01-01T00:00:00.000Z"
      (fun _ => SendOutcome.pending) =
      (some (.errorResp 400 ("MISSING_FIELDS")), []) ∧
    (handleSendEstimate {} none "2025-01-01T00:00:00.000Z"
      (fun _ => SendOutcome.pending)).resp.okField = false :=
  claim1_missing_fields {} none "2025-01-01T00:00:00.000Z"
    (fun _ => SendOutcome.pending) (by decide)

/-- Claim C5: all four required fields present but the email
syntactically invalid — no `@`, or no dot in the domain part — gets
HTTP 400 with error tag INVALID_EMAIL and no send is attempted, in
both server variants, for every possible transport behaviour. -/
theorem claim5_invalid_email (env : Env) (reqBody : Option EstimateBody)
    (now : String) (send : MailMessage → SendOutcome)
    (hn : falsy (reqBody.getD {}).name = false)
    (he : falsy (reqBody.getD {}).email = false)
    (hp : falsy (reqBody.getD {}).phone = false)
    (hc : falsy (reqBody.getD {}).city = false)
    (hbad : '@' ∉ ((reqBody.getD {}).email.getD "").data ∨
      '.' ∉ domainPart ((reqBody.getD {}).email.getD "")) :
    handleSendEstimate env reqBody now send =
      ⟨.errorResp 400 ("INVALID_EMAIL"), [], 0⟩ ∧
    handleSendEstimateLegacy env reqBody now send =
      (some (.errorResp 400 ("INVALID_EMAIL")), []) := by
  have hmail : isEmail ((reqBody.getD {}).email.getD "") = false := by
    rcases hbad with h | h
    · exact isEmail_eq_false_of_no_at _ h
    · exact isEmail_eq_false_of_no_domain_dot _ h
  have hfields : (falsy (reqBody.getD {}).name ||
      falsy (reqBody.getD {}).email || falsy (reqBody.getD {}).phone ||
      falsy (reqBody.getD {}).city) = false := by
    simp [hn, he, hp, hc]
  constructor
  · unfold handleSendEstimate
    rw [if_neg (by simp [hfields]), if_pos (by simp [hmail])]
  · unfold handleSendEstimateLegacy
    rw [if_neg (by simp [hfields]), if_pos (by simp [hmail])]

/-- A request body whose email has no `@`, used as the C5 witness input. -/
def noAtEmailBody : EstimateBody :=
  { name := some "Bob", email := some "bobexample.com",
    phone := some "1234567890", city := some "Los Angeles" }

/-- Witness for C5: a request whose email has no `@` at all. -/
theorem claim5_invalid_email_witness :
    handleSendEstimate {} (some noAtEmailBody) "2025-01-01T00:00:00.000Z"
      (fun _ => SendOutcome.pending) =
      ⟨.errorResp 400 ("INVALID_EMAIL"), [], 0⟩ ∧
    handleSendEstimateLegacy {} (some noAtEmailBody) "2025-01-01T00:00:00.000Z"
      (fun _ => SendOutcome.pending) =
      (some (.errorResp 400 ("INVALID_EMAIL")), []) :=
  claim5_invalid_email {} (some noAtEmailBody) "2025-01-01T00:00:00.000Z"
    (fun _ => SendOutcome.pending) (by decide) (by decide) (by decide)
    (by decide) (Or.inl (by decide))

/-- Claim C8: the CORS origin callback permits a request with no
Origin header; permits an Origin that exactly matches an entry of the
comma-separated allow-list (entries trimmed, empty entries discarded,
as the concrete conjunct shows); and fails every other request with a
CORS error naming the origin. -/
theorem claim8_cors (allowed : Option String) (o : String) :
    corsOrigin allowed none = .allow ∧
    (o ∈ parseAllowList allowed → corsOrigin allowed (some o) = .allow) ∧
    (o.isEmpty = false → o ∉ parseAllowList allowed →
      corsOrigin allowed (some o) =
        .block ("CORS blocked from origin: " ++ o)) ∧
    parseAllowList (some " https://a.com ,, https://b.com ") =
      ["https://a.com", "https://b.com"] := by
  refine ⟨rfl, ?_, ?_, by decide⟩
  · intro hmem
    unfold corsOrigin
    by_cases he : o.isEmpty
    · simp [he]
    · simp only [he, Bool.false_eq_true, if_false]
      rw [if_pos]
      simp [List.contains_iff_exists_mem_beq]
      exact hmem
  · intro he hmem
    unfold corsOrigin
    have hcont : (parseAllowList allowed).contains o = false := by
      simp [List.contains_iff_exists_mem_beq]
      exact hmem
    simp [he, hcont]
    exact hmem

/-- Witness for C8 at concrete inputs: no-Origin allowed, listed
origin allowed, unlisted origin blocked with the CORS error. -/
theorem claim8_cors_witness :
    corsOrigin (some "https://a.com, https://b.com") none = .allow ∧
    corsOrigin (some "https://a.com, https://b.com")
      (some "https://a.com") = .allow ∧
    corsOrigin (some "https://a.com, https://b.com")
      (some "https://evil.com") =
      .block ("CORS blocked from origin: " ++ "https://evil.com") :=
  ⟨(claim8_cors (some "https://a.com, https://b.com") "x").1,
   (claim8_cors (some "https://a.com, https://b.com") "https://a.com").2.1
     (by decide),
   (claim8_cors (some "https://a.com, https://b.com") "https://evil.com").2.2.1
     (by decide) (by decide)⟩

/-- A send outcome that does not settle strictly before the bound:
still pending at `ms`, or settling only at or after `ms`. -/
def exceedsBound (p : SendOutcome) (ms : Nat) : Prop :=
  match p with
  | .pending => True
  | .resolved _ t => ms ≤ t
  | .rejected _ t => ms ≤ t

/-- A send outcome that rejects strictly before the bound. -/
def rejectsBefore (p : SendOutcome) (ms : Nat) : Prop :=
  ∃ e t, p = .rejected e t ∧ t < ms

theorem sendWithTimeout_resolved_lt {i : MailInfo} {t ms : Nat} (h : t < ms) :
    sendWithTimeout (.resolved i t) ms = .resolved i t := by
  simp only [sendWithTimeout]; rw [if_pos h]

theorem sendWithTimeout_rejected_lt {e : String} {t ms : Nat} (h : t < ms) :
    sendWithTimeout (.rejected e t) ms = .rejected e t := by
  simp only [sendWithTimeout]; rw [if_pos h]

/-- A send that does not settle before the bound loses the race: the
timer rejects with `SMTP_TIMEOUT` exactly at the bound. -/
theorem sendWithTimeout_of_exceeds (p : SendOutcome) (ms : Nat)
    (h : exceedsBound p ms) : sendWithTimeout p ms = .rejected ("SMTP_TIMEOUT") ms := by
  cases p with
  | resolved i t =>
      have h' : ms ≤ t := h
      simp only [sendWithTimeout]; rw [if_neg (Nat.not_lt.mpr h')]
  | rejected e t =>
      have h' : ms ≤ t := h
      simp only [sendWithTimeout]; rw [if_neg (Nat.not_lt.mpr h')]
  | pending => rfl

/-- The race always settles by the bound. -/
theorem sendWithTimeout_time_le (p : SendOutcome) (ms : Nat) :
    (sendWithTimeout p ms).time ≤ ms := by
  cases p with
  | resolved i t =>
      simp only [sendWithTimeout]
      by_cases h : t < ms
      · rw [if_pos h]; exact Nat.le_of_lt h
      · rw [if_neg h]; exact Nat.le_refl ms
  | rejected e t =>
      simp only [sendWithTimeout]
      by_cases h : t < ms
      · rw [if_pos h]; exact Nat.le_of_lt h
      · rw [if_neg h]; exact Nat.le_refl ms
  | pending => exact Nat.le_refl ms

/-- Settlement time of a `Promise.all` join. -/
def JoinResult.time : JoinResult → Nat
  | .ok _ _ t => t
  | .err _ t => t

/-- The join settles no later than the later of its two inputs. -/
theorem promiseAll2_time_le (r1 r2 : Settled) (ms : Nat)
    (h1 : r1.time ≤ ms) (h2 : r2.time ≤ ms) :
    (promiseAll2 r1 r2).time ≤ ms := by
  cases r1 with
  | resolved i1 t1 =>
      cases r2 with
      | resolved i2 t2 =>
          simp only [promiseAll2, JoinResult.time]
          exact Nat.max_le.mpr ⟨h1, h2⟩
      | rejected e2 t2 => exact h2
  | rejected e1 t1 =>
      cases r2 with
      | resolved i2 t2 => exact h1
      | rejected e2 t2 =>
          simp only [promiseAll2]
          by_cases h : t2 < t1
          · rw [if_pos h]; exact h2
          · rw [if_neg h]; exact h1

/-- Claim C6: when the email-disable switch is set, a validated
request is answered 200 with the `email disabled` note and the current
timestamp, and no send call is issued to the transport. -/
theorem claim6_disable_email (env : Env) (b : EstimateBody) (now : String)
    (send : MailMessage → SendOutcome)
    (hd : env.DISABLE_EMAIL = some "true")
    (hn : falsy b.name = false) (he : falsy b.email = false)
    (hp : falsy b.phone = false) (hc : falsy b.city = false)
    (hmail : isEmail (b.email.getD "") = true) :
    handleSendEstimate env (some b) now send =
      ⟨.disabledResp ("email disabled") now, [], 0⟩ ∧
    (handleSendEstimate env (some b) now send).resp.statusCode = 200 ∧
    (handleSendEstimate env (some b) now send).resp.okField = true := by
  have h1 : handleSendEstimate env (some b) now send =
      ⟨.disabledResp ("email disabled") now, [], 0⟩ := by
    unfold handleSendEstimate
    rw [if_neg (by simp [hn, he, hp, hc]), if_neg (by simp [hmail]),
      if_pos (by simp [hd])]
  exact ⟨h1, by rw [h1]; rfl, by rw [h1]; rfl⟩

/-- A well-formed request body used as witness input by several claims. -/
def wellFormedBody : EstimateBody :=
  { name := some "Bob", email := some "bob@example.com",
    phone := some "1234567890", city := some "Los Angeles" }

/-- Witness for C6 at a concrete input. -/
theorem claim6_disable_email_witness :
    handleSendEstimate { DISABLE_EMAIL := some "true" } (some wellFormedBody)
      "2025-01-01T00:00:00.000Z" (fun _ => SendOutcome.pending) =
      ⟨.disabledResp ("email disabled") "2025-01-01T00:00:00.000Z", [], 0⟩ ∧
    (handleSendEstimate { DISABLE_EMAIL := some "true" } (some wellFormedBody)
      "2025-01-01T00:00:00.000Z"
      (fun _ => SendOutcome.pending)).resp.statusCode = 200 ∧
    (handleSendEstimate { DISABLE_EMAIL := some "true" } (some wellFormedBody)
      "2025-01-01T00:00:00.000Z"
      (fun _ => SendOutcome.pending)).resp.okField = true :=
  claim6_disable_email { DISABLE_EMAIL := some "true" } wellFormedBody
    "2025-01-01T00:00:00.000Z" (fun _ => SendOutcome.pending) rfl
    (by decide) (by decide) (by decide) (by decide) (by decide)

/-- Claim C7: when both sends resolve within the bound with non-empty,
distinct message identifiers, the response is 200 `{ok:true}` carrying
exactly those two identifiers, one per sent message. -/
theorem claim7_success (env : Env) (b : EstimateBody) (now : String)
    (send : MailMessage → SendOutcome) (i1 i2 : MailInfo) (t1 t2 : Nat)
    (hn : falsy b.name = false) (he : falsy b.email = false)
    (hp : falsy b.phone = false) (hc : falsy b.city = false)
    (hmail : isEmail (b.email.getD "") = true)
    (hd : env.DISABLE_EMAIL ≠ some "true")
    (hs1 : send (internalMailOf env b now) = .resolved i1 t1)
    (ht1 : t1 < sendTimeoutMs)
    (hs2 : send (autoReplyMailOf env b) = .resolved i2 t2)
    (ht2 : t2 < sendTimeoutMs)
    (hne1 : i1.messageId.isEmpty = false)
    (hne2 : i2.messageId.isEmpty = false)
    (hdist : i1.messageId ≠ i2.messageId) :
    (handleSendEstimate env (some b) now send).resp =
      .successResp (some i1.messageId) (some i2.messageId) ∧
    (handleSendEstimate env (some b) now send).resp.statusCode = 200 ∧
    (handleSendEstimate env (some b) now send).resp.okField = true ∧
    some i1.messageId ≠ some i2.messageId ∧
    (handleSendEstimate env (some b) now send).sent =
      [internalMailOf env b now, autoReplyMailOf env b] := by
  have hred := handle_send_phase env b now send hn he hp hc hmail hd
  rw [hs1, hs2, sendWithTimeout_resolved_lt ht1,
    sendWithTimeout_resolved_lt ht2] at hred
  have hj : promiseAll2 (Settled.resolved i1 t1) (Settled.resolved i2 t2) =
      .ok i1 i2 (max t1 t2) := rfl
  rw [hj] at hred
  dsimp only at hred
  have hid1 : jsStrOrNull i1.messageId = some i1.messageId := by
    unfold jsStrOrNull; rw [hne1]; rfl
  have hid2 : jsStrOrNull i2.messageId = some i2.messageId := by
    unfold jsStrOrNull; rw [hne2]; rfl
  rw [hid1, hid2] at hred
  exact ⟨by simp [hred], by rw [hred]; rfl, by rw [hred]; rfl, by simp [hdist],
    by simp [hred]⟩

/-- Witness for C7 at a concrete input: a transport resolving the two
messages with ids `id-lead` and `id-auto` at 10 ms and 20 ms. -/
theorem claim7_success_witness :
    (handleSendEstimate {} (some wellFormedBody) "2025-01-01T00:00:00.000Z"
      (fun m => if m.html.isSome then SendOutcome.resolved ⟨"id-auto"⟩ 20
        else SendOutcome.resolved ⟨"id-lead"⟩ 10)).resp =
      .successResp (some "id-lead") (some "id-auto") ∧
    (handleSendEstimate {} (some wellFormedBody) "2025-01-01T00:00:00.000Z"
      (fun m => if m.html.isSome then SendOutcome.resolved ⟨"id-auto"⟩ 20
        else SendOutcome.resolved ⟨"id-lead"⟩ 10)).resp.statusCode = 200 ∧
    (handleSendEstimate {} (some wellFormedBody) "2025-01-01T00:00:00.000Z"
      (fun m => if m.html.isSome then SendOutcome.resolved ⟨"id-auto"⟩ 20
        else SendOutcome.resolved ⟨"id-lead"⟩ 10)).resp.okField = true ∧
    some "id-lead" ≠ some "id-auto" ∧
    (handleSendEstimate {} (some wellFormedBody) "2025-01-01T00:00:00.000Z"
      (fun m => if m.html.isSome then SendOutcome.resolved ⟨"id-auto"⟩ 20
        else SendOutcome.resolved ⟨"id-lead"⟩ 10)).sent =
      [internalMailOf {} wellFormedBody "2025-01-01T00:00:00.000Z",
        autoReplyMailOf {} wellFormedBody] :=
  claim7_success {} wellFormedBody "2025-01-01T00:00:00.000Z"
    (fun m => if m.html.isSome then SendOutcome.resolved ⟨"id-auto"⟩ 20
      else SendOutcome.resolved ⟨"id-lead"⟩ 10)
    ⟨"id-lead"⟩ ⟨"id-auto"⟩ 10 20
    (by decide) (by decide) (by decide) (by decide) (by decide) (by decide)
    (by decide) (by decide) (by decide) (by decide) (by decide) (by decide)
    (by decide)

/-- Claim C2: on a validated, email-enabled request, every failure
response carries only the generic MAIL_SEND_FAILED tag (never the
transport's error text) with status 504 or 502; a timeout (neither
send settling before the bound) yields 504, while a transport
rejection before the bound (with the other send succeeding) yields
502. -/
theorem claim2_failure_statuses (env : Env) (b : EstimateBody) (now : String)
    (send : MailMessage → SendOutcome)
    (hn : falsy b.name = false) (he : falsy b.email = false)
    (hp : falsy b.phone = false) (hc : falsy b.city = false)
    (hmail : isEmail (b.email.getD "") = true)
    (hd : env.DISABLE_EMAIL ≠ some "true") :
    (∀ s e, (handleSendEstimate env (some b) now send).resp = .errorResp s e →
      e = "MAIL_SEND_FAILED" ∧ (s = 504 ∨ s = 502)) ∧
    (exceedsBound (send (internalMailOf env b now)) sendTimeoutMs →
      exceedsBound (send (autoReplyMailOf env b)) sendTimeoutMs →
      (handleSendEstimate env (some b) now send).resp =
        .errorResp 504 ("MAIL_SEND_FAILED")) ∧
    (∀ e t i2 t2, send (internalMailOf env b now) = .rejected e t →
      t < sendTimeoutMs → e ≠ "SMTP_TIMEOUT" →
      send (autoReplyMailOf env b) = .resolved i2 t2 → t2 < sendTimeoutMs →
      (handleSendEstimate env (some b) now send).resp =
        .errorResp 502 ("MAIL_SEND_FAILED")) := by
  refine ⟨?_, ?_, ?_⟩
  · intro s e hresp
    have hred := handle_send_phase env b now send hn he hp hc hmail hd
    rcases hj : promiseAll2
        (sendWithTimeout (send (internalMailOf env b now)) sendTimeoutMs)
        (sendWithTimeout (send (autoReplyMailOf env b)) sendTimeoutMs) with
      ⟨i1, i2, t⟩ | ⟨e0, t⟩
    · rw [hj] at hred; dsimp only at hred
      rw [hred] at hresp
      exact absurd hresp (by simp)
    · rw [hj] at hred; dsimp only at hred
      rw [hred] at hresp
      dsimp only at hresp
      injection hresp with h1 h2
      refine ⟨h2.symm, ?_⟩
      by_cases hb : (e0 == "SMTP_TIMEOUT") = true
      · rw [if_pos hb] at h1; exact Or.inl h1.symm
      · rw [if_neg hb] at h1; exact Or.inr h1.symm
  · intro hx1 hx2
    have hred := handle_send_phase env b now send hn he hp hc hmail hd
    rw [sendWithTimeout_of_exceeds _ _ hx1,
      sendWithTimeout_of_exceeds _ _ hx2] at hred
    have hj : promiseAll2 (Settled.rejected ("SMTP_TIMEOUT") sendTimeoutMs)
        (Settled.rejected ("SMTP_TIMEOUT") sendTimeoutMs) =
        .err ("SMTP_TIMEOUT") sendTimeoutMs := by
      simp only [promiseAll2]; rw [if_neg (Nat.lt_irrefl _)]
    rw [hj] at hred; dsimp only at hred
    rw [hred]; simp
  · intro e t i2 t2 hrj ht hne hs2 ht2
    have hred := handle_send_phase env b now send hn he hp hc hmail hd
    rw [hrj, hs2, sendWithTimeout_rejected_lt ht,
      sendWithTimeout_resolved_lt ht2] at hred
    have hj : promiseAll2 (Settled.rejected e t) (Settled.resolved i2 t2) =
        .err e t := rfl
    rw [hj] at hred; dsimp only at hred
    rw [hred]; dsimp only
    rw [if_neg (by simp [hne])]

/-- Witness for C2: a transport that never settles either send; the
handler answers 504 with the generic tag. -/
theorem claim2_failure_statuses_witness :
    (handleSendEstimate {} (some wellFormedBody) "2025-01-01T00:00:00.000Z"
      (fun _ => SendOutcome.pending)).resp =
      .errorResp 504 ("MAIL_SEND_FAILED") :=
  (claim2_failure_statuses {} wellFormedBody "2025-01-01T00:00:00.000Z"
    (fun _ => SendOutcome.pending) (by decide) (by decide) (by decide)
    (by decide) (by decide) (by decide)).2.1 trivial trivial

/-- Claim C4: on a validated, email-enabled request both sends are
issued to the transport — whatever either send's outcome, so neither
depends on the other — and when both resolve within the bound the
request completes at the later of the two times (`Promise.all` join),
not at their sum. -/
theorem claim4_concurrent_sends (env : Env) (b : EstimateBody) (now : String)
    (send : MailMessage → SendOutcome)
    (hn : falsy b.name = false) (he : falsy b.email = false)
    (hp : falsy b.phone = false) (hc : falsy b.city = false)
    (hmail : isEmail (b.email.getD "") = true)
    (hd : env.DISABLE_EMAIL ≠ some "true") :
    (handleSendEstimate env (some b) now send).sent =
      [internalMailOf env b now, autoReplyMailOf env b] ∧
    (∀ i1 t1 i2 t2, send (internalMailOf env b now) = .resolved i1 t1 →
      t1 < sendTimeoutMs → send (autoReplyMailOf env b) = .resolved i2 t2 →
      t2 < sendTimeoutMs →
      (handleSendEstimate env (some b) now send).time = max t1 t2) := by
  constructor
  · have hred := handle_send_phase env b now send hn he hp hc hmail hd
    rcases hj : promiseAll2
        (sendWithTimeout (send (internalMailOf env b now)) sendTimeoutMs)
        (sendWithTimeout (send (autoReplyMailOf env b)) sendTimeoutMs) with
      ⟨i1, i2, t⟩ | ⟨e, t⟩ <;> rw [hj] at hred <;> dsimp only at hred <;>
      rw [hred]
  · intro i1 t1 i2 t2 hs1 ht1 hs2 ht2
    have hred := handle_send_phase env b now send hn he hp hc hmail hd
    rw [hs1, hs2, sendWithTimeout_resolved_lt ht1,
      sendWithTimeout_resolved_lt ht2] at hred
    have hj : promiseAll2 (Settled.resolved i1 t1) (Settled.resolved i2 t2) =
        .ok i1 i2 (max t1 t2) := rfl
    rw [hj] at hred; dsimp only at hred
    rw [hred]

/-- Witness for C4: with a transport resolving the internal notice at
10 ms and the auto-reply at 20 ms, both messages are recorded as sent
and the request completes at max 10 20 = 20 ms. -/
theorem claim4_concurrent_sends_witness :
    (handleSendEstimate {} (some wellFormedBody) "2025-01-01T00:00:00.000Z"
      (fun m => if m.html.isSome then SendOutcome.resolved ⟨"id-b"⟩ 20
        else SendOutcome.resolved ⟨"id-a"⟩ 10)).sent =
      [internalMailOf {} wellFormedBody "2025-01-01T00:00:00.000Z",
        autoReplyMailOf {} wellFormedBody] ∧
    (handleSendEstimate {} (some wellFormedBody) "2025-01-01T00:00:00.000Z"
      (fun m => if m.html.isSome then SendOutcome.resolved ⟨"id-b"⟩ 20
        else SendOutcome.resolved ⟨"id-a"⟩ 10)).time = max 10 20 :=
  ⟨(claim4_concurrent_sends {} wellFormedBody "2025-01-01T00:00:00.000Z"
      (fun m => if m.html.isSome then SendOutcome.resolved ⟨"id-b"⟩ 20
        else SendOutcome.resolved ⟨"id-a"⟩ 10)
      (by decide) (by decide) (by decide) (by decide) (by decide)
      (by decide)).1,
   (claim4_concurrent_sends {} wellFormedBody "2025-01-01T00:00:00.000Z"
      (fun m => if m.html.isSome then SendOutcome.resolved ⟨"id-b"⟩ 20
        else SendOutcome.resolved ⟨"id-a"⟩ 10)
      (by decide) (by decide) (by decide) (by decide) (by decide)
      (by decide)).2 ⟨"id-a"⟩ 10 ⟨"id-b"⟩ 20 (by decide) (by decide)
      (by decide) (by decide)⟩

/-- Case split for a race whose send does not reject before the bound:
either the timer fires (rejecting with SMTP_TIMEOUT at the bound) or
the send resolved strictly before the bound. -/
theorem sendWithTimeout_cases (p : SendOutcome) (ms : Nat)
    (hnr : ¬ rejectsBefore p ms) :
    sendWithTimeout p ms = .rejected ("SMTP_TIMEOUT") ms ∨
    ∃ i t, t < ms ∧ sendWithTimeout p ms = .resolved i t ∧
      p = .resolved i t := by
  cases p with
  | resolved i t =>
      by_cases h : t < ms
      · exact Or.inr ⟨i, t, h, sendWithTimeout_resolved_lt h, rfl⟩
      · exact Or.inl (sendWithTimeout_of_exceeds _ _ (Nat.not_lt.mp h))
  | rejected e t =>
      by_cases h : t < ms
      · exact absurd ⟨e, t, rfl, h⟩ hnr
      · exact Or.inl (sendWithTimeout_of_exceeds _ _ (Nat.not_lt.mp h))
  | pending => exact Or.inl rfl

/-- Claim C3, amended: on a validated, email-enabled request the
response is always produced within the 7000 ms per-send bound (a
bound distinct from the transport's 5000 ms connection-level
timeouts); and when a send exceeds the bound, the request fails as a
timeout (504) provided the other send does not reject with a transport
error before the bound fires. -/
theorem claim3_send_timeout_amended (env : Env) (b : EstimateBody)
    (now : String) (send : MailMessage → SendOutcome)
    (hn : falsy b.name = false) (he : falsy b.email = false)
    (hp : falsy b.phone = false) (hc : falsy b.city = false)
    (hmail : isEmail (b.email.getD "") = true)
    (hd : env.DISABLE_EMAIL ≠ some "true") :
    (handleSendEstimate env (some b) now send).time ≤ sendTimeoutMs ∧
    sendTimeoutMs ≠ connectionTimeoutMs ∧
    sendTimeoutMs ≠ greetingTimeoutMs ∧
    sendTimeoutMs ≠ socketTimeoutMs ∧
    ((exceedsBound (send (internalMailOf env b now)) sendTimeoutMs ∨
        exceedsBound (send (autoReplyMailOf env b)) sendTimeoutMs) →
      ¬ rejectsBefore (send (internalMailOf env b now)) sendTimeoutMs →
      ¬ rejectsBefore (send (autoReplyMailOf env b)) sendTimeoutMs →
      (handleSendEstimate env (some b) now send).resp =
        .errorResp 504 ("MAIL_SEND_FAILED") ∧
      (handleSendEstimate env (some b) now send).time = sendTimeoutMs) := by
  refine ⟨?_, by decide, by decide, by decide, ?_⟩
  · have hred := handle_send_phase env b now send hn he hp hc hmail hd
    have h1 := sendWithTimeout_time_le (send (internalMailOf env b now))
      sendTimeoutMs
    have h2 := sendWithTimeout_time_le (send (autoReplyMailOf env b))
      sendTimeoutMs
    have hjoin := promiseAll2_time_le _ _ _ h1 h2
    rcases hj : promiseAll2
        (sendWithTimeout (send (internalMailOf env b now)) sendTimeoutMs)
        (sendWithTimeout (send (autoReplyMailOf env b)) sendTimeoutMs) with
      ⟨i1, i2, t⟩ | ⟨e, t⟩ <;> rw [hj] at hred hjoin <;> dsimp only at hred <;>
      rw [hred] <;> exact hjoin
  · intro hex hnr1 hnr2
    have hred := handle_send_phase env b now send hn he hp hc hmail hd
    rcases sendWithTimeout_cases (send (internalMailOf env b now))
        sendTimeoutMs hnr1 with h1 | ⟨i1, t1, ht1, h1, hp1⟩
    · rcases sendWithTimeout_cases (send (autoReplyMailOf env b))
          sendTimeoutMs hnr2 with h2 | ⟨i2, t2, ht2, h2, hp2⟩
      · rw [h1, h2] at hred
        have hj : promiseAll2
            (Settled.rejected ("SMTP_TIMEOUT") sendTimeoutMs)
            (Settled.rejected ("SMTP_TIMEOUT") sendTimeoutMs) =
            .err ("SMTP_TIMEOUT") sendTimeoutMs := by
          simp only [promiseAll2]; rw [if_neg (Nat.lt_irrefl _)]
        rw [hj] at hred; dsimp only at hred
        exact ⟨by rw [hred]; simp, by rw [hred]⟩
      · rw [h1, h2] at hred
        have hj : promiseAll2
            (Settled.rejected ("SMTP_TIMEOUT") sendTimeoutMs)
            (Settled.resolved i2 t2) =
            .err ("SMTP_TIMEOUT") sendTimeoutMs := rfl
        rw [hj] at hred; dsimp only at hred
        exact ⟨by rw [hred]; simp, by rw [hred]⟩
    · have hex2 : exceedsBound (send (autoReplyMailOf env b)) sendTimeoutMs := by
        rcases hex with hx | hx
        · rw [hp1] at hx
          have hx' : sendTimeoutMs ≤ t1 := hx
          exact absurd ht1 (Nat.not_lt.mpr hx')
        · exact hx
      rw [h1, sendWithTimeout_of_exceeds _ _ hex2] at hred
      have hj : promiseAll2 (Settled.resolved i1 t1)
          (Settled.rejected ("SMTP_TIMEOUT") sendTimeoutMs) =
          .err ("SMTP_TIMEOUT") sendTimeoutMs := rfl
      rw [hj] at hred; dsimp only at hred
      exact ⟨by rw [hred]; simp, by rw [hred]⟩

/-- Witness for the amended C3: a relay that never responds — the
request is answered 504 exactly at the 7000 ms bound, within it. -/
theorem claim3_send_timeout_amended_witness :
    (handleSendEstimate {} (some wellFormedBody) "2025-01-01T00:00:00.000Z"
      (fun _ => SendOutcome.pending)).time ≤ sendTimeoutMs ∧
    (handleSendEstimate {} (some wellFormedBody) "2025-01-01T00:00:00.000Z"
      (fun _ => SendOutcome.pending)).resp =
      .errorResp 504 ("MAIL_SEND_FAILED") ∧
    (handleSendEstimate {} (some wellFormedBody) "2025-01-01T00:00:00.000Z"
      (fun _ => SendOutcome.pending)).time = sendTimeoutMs := by
  have h := claim3_send_timeout_amended {} wellFormedBody
    "2025-01-01T00:00:00.000Z" (fun _ => SendOutcome.pending)
    (by decide) (by decide) (by decide) (by decide) (by decide) (by decide)
  have hleg := h.2.2.2.2 (Or.inl trivial)
    (by rintro ⟨e, t, habs, -⟩; exact SendOutcome.noConfusion habs)
    (by rintro ⟨e, t, habs, -⟩; exact SendOutcome.noConfusion habs)
  exact ⟨h.1, hleg.1, hleg.2⟩

/-- A transport behaviour where the internal-notice send never settles
while the auto-reply send is refused after 100 ms. -/
def mixedOracle : MailMessage → SendOutcome :=
  fun m => if m.html.isSome then SendOutcome.rejected ("ECONNREFUSED") 100
    else SendOutcome.pending

/-- Counterexample to C3 as stated: the internal-notice send exceeds
the 7000 ms bound (it never settles), yet the request does not fail as
a timeout — the auto-reply's earlier transport rejection wins the
`Promise.all` join and the response is 502, not 504. -/
theorem claim3_counterexample :
    (handleSendEstimate {} (some wellFormedBody) "2025-01-01T00:00:00.000Z"
      mixedOracle).resp = .errorResp 502 ("MAIL_SEND_FAILED") ∧
    exceedsBound
      (mixedOracle (internalMailOf {} wellFormedBody
        "2025-01-01T00:00:00.000Z")) sendTimeoutMs ∧
    (502 : Nat) ≠ 504 :=
  ⟨by decide, trivial, by decide⟩

/-- Claim C9: on a validated, email-enabled request with a (truthy)
message field, the auto-reply MailMessage's HTML body contains the
message text with every `<` and `>` removed, and that sanitized text
indeed contains no angle bracket. -/
theorem claim9_message_sanitized (env : Env) (b : EstimateBody)
    (now : String) (send : MailMessage → SendOutcome) (m : String)
    (hn : falsy b.name = false) (he : falsy b.email = false)
    (hp : falsy b.phone = false) (hc : falsy b.city = false)
    (hmail : isEmail (b.email.getD "") = true)
    (hd : env.DISABLE_EMAIL ≠ some "true")
    (hmsg : b.message = some m) (hm : m.isEmpty = false) :
    ((handleSendEstimate env (some b) now send).sent.map MailMessage.html) =
      [none, some (autoReplyHtml (b.name.getD "") (b.phone.getD "")
        (b.city.getD "") b.type b.message)] ∧
    containsSeg ((stripAngles m).data)
      ((autoReplyHtml (b.name.getD "") (b.phone.getD "") (b.city.getD "")
        b.type b.message).data) = true ∧
    ((stripAngles m).data.all (fun c => !(c == '<' || c == '>'))) = true := by
  refine ⟨?_, ?_, ?_⟩
  · have hred := handle_send_phase env b now send hn he hp hc hmail hd
    rcases hj : promiseAll2
        (sendWithTimeout (send (internalMailOf env b now)) sendTimeoutMs)
        (sendWithTimeout (send (autoReplyMailOf env b)) sendTimeoutMs) with
      ⟨i1, i2, t⟩ | ⟨e, t⟩ <;> rw [hj] at hred <;> dsimp only at hred <;>
      rw [hred] <;>
      simp [internalMailOf, autoReplyMailOf, mkInternalMail, mkAutoReplyMail]
  · have hm2 : msgHtmlField b.message = stripAngles m := by
      rw [hmsg]; simp [msgHtmlField, hm]
    unfold autoReplyHtml
    rw [hm2]
    simp only [data_append_eq, List.append_assoc]
    apply containsSeg_append_left
    apply containsSeg_append_left
    apply containsSeg_append_left
    apply containsSeg_append_left
    apply containsSeg_append_left
    apply containsSeg_append_left
    apply containsSeg_append_left
    apply containsSeg_append_left
    apply containsSeg_append_left
    exact containsSeg_here _ _
  · rw [List.all_eq_true]
    intro c hc2
    have hc3 : c ∈ m.data.filter (fun c => !(c == '<' || c == '>')) := by
      simpa [stripAngles] using hc2
    have := List.mem_filter.mp hc3
    simpa using this.2

/-- A request body carrying a free-text message with markup, used as
the C9 witness input. -/
def msgBody : EstimateBody :=
  { name := some "Bob", email := some "bob@example.com",
    phone := some "1234567890", city := some "Los Angeles",
    message := some "Please call <soon>" }

/-- Witness for C9 at a concrete input. -/
theorem claim9_message_sanitized_witness :
    ((handleSendEstimate {} (some msgBody) "2025-01-01T00:00:00.000Z"
      (fun _ => SendOutcome.pending)).sent.map MailMessage.html) =
      [none, some (autoReplyHtml "Bob" "1234567890" "Los Angeles" none
        (some "Please call <soon>"))] ∧
    containsSeg ((stripAngles "Please call <soon>").data)
      ((autoReplyHtml "Bob" "1234567890" "Los Angeles" none
        (some "Please call <soon>")).data) = true ∧
    ((stripAngles "Please call <soon>").data.all
      (fun c => !(c == '<' || c == '>'))) = true :=
  claim9_message_sanitized {} msgBody "2025-01-01T00:00:00.000Z"
    (fun _ => SendOutcome.pending) "Please call <soon>"
    (by decide) (by decide) (by decide) (by decide) (by decide) (by decide)
    (by decide) (by decide)

/-- A request body whose name, phone, city and type all carry markup,
used as the C10 input. -/
def c10Body : EstimateBody :=
  { name := some "<b>Bob</b>", email := some "bob@example.com",
    phone := some "<123>", city := some "<LA>",
    type := some "<vertical>", message := some "hi <there>" }

/-- The auto-reply HTML the handler produces for `c10Body`. -/
def c10Html : String :=
  autoReplyHtml "<b>Bob</b>" "<123>" "<LA>" (some "<vertical>")
    (some "hi <there>")

set_option maxRecDepth 100000 in
/-- Claim C10: only the message field is sanitized — the name, phone,
city and type values are interpolated into the auto-reply HTML
verbatim, angle brackets included, while the message's own `<there>`
markup does not survive. -/
theorem claim10_unsanitized_fields :
    ((handleSendEstimate {} (some c10Body) "2025-01-01T00:00:00.000Z"
      (fun _ => SendOutcome.pending)).sent.map MailMessage.html) =
      [none, some c10Html] ∧
    containsSeg (("<b>Bob</b>").data) (c10Html.data) = true ∧
    containsSeg (("<123>").data) (c10Html.data) = true ∧
    containsSeg (("<LA>").data) (c10Html.data) = true ∧
    containsSeg (("<vertical>").data) (c10Html.data) = true ∧
    containsSeg (("<there>").data) (c10Html.data) = false :=
  ⟨by decide, by decide, by decide, by decide, by decide, by decide⟩
